import Mathlib

set_option autoImplicit false

/-!
Shallow embedding of the GPU resource-management layer of the oxyde repository
(src/wgpu_utils): the bind-group layout/group builders, the ping-pong buffer and
texture, the uniform buffer, the staging-buffer wrapper and the device/surface
manager.  GPU objects (buffers, adapters, devices, surfaces) are modelled by
handles or oracle functions; every GPU side effect relevant to a claim (queue
writes, surface configuration calls) is made explicit in the return value of the
embedded operation.
-/

namespace Oxyde

/-! Model of the wgpu value types used by the embedded code. -/

/-- Model of wgpu::ShaderStages, a bitflag set, as a natural-number bitmask. -/
abbrev ShaderStages := Nat

namespace ShaderStages
def NONE : ShaderStages := 0
def VERTEX : ShaderStages := 1
def FRAGMENT : ShaderStages := 2
def COMPUTE : ShaderStages := 4
def VERTEX_FRAGMENT : ShaderStages := 3
end ShaderStages

/-- Model of wgpu::BufferSize (NonZeroU64): BufferSize::new returns None on zero. -/
def BufferSize.new (n : Nat) : Option Nat := if n = 0 then none else some n

/-- Model of wgpu::BufferBindingType. -/
inductive BufferBindingType where
  | Uniform
  | Storage (read_only : Bool)
  deriving DecidableEq, Repr

/-- Model of wgpu::SamplerBindingType. -/
inductive SamplerBindingType where
  | Filtering
  | NonFiltering
  | Comparison
  deriving DecidableEq, Repr

/-- Model of wgpu::BindingType.  The Buffer variant carries every field the
embedded code sets; the Sampler and Texture variants are carried through the
generic builder unchanged, so only the fields the code sets are modelled. -/
inductive BindingType where
  | Buffer (ty : BufferBindingType) (has_dynamic_offset : Bool) (min_binding_size : Option Nat)
  | Sampler (ty : SamplerBindingType)
  | Texture (multisampled : Bool)
  deriving DecidableEq, Repr

/-- Extracts the read_only flag of a storage-buffer binding type, if any. -/
def BindingType.storage_read_only : BindingType → Option Bool
  | .Buffer (.Storage ro) _ _ => some ro
  | _ => none

/-- Model of wgpu::BindGroupLayoutEntry. -/
structure BindGroupLayoutEntry where
  binding : Nat
  visibility : ShaderStages
  ty : BindingType
  count : Option Nat
  deriving DecidableEq, Repr

/-- Model of a compiled wgpu::BindGroupLayout: the descriptor the code hands to
device.create_bind_group_layout (label plus entry list). -/
structure BindGroupLayout where
  label : Option String
  entries : List BindGroupLayoutEntry
  deriving DecidableEq, Repr

/-! Embedding of src/wgpu_utils/binding_builder.rs. -/

/-- BindGroupLayoutWithDesc from binding_builder.rs: the compiled layout paired
with the exact ordered entry list that produced it. -/
structure BindGroupLayoutWithDesc where
  layout : BindGroupLayout
  entries : List BindGroupLayoutEntry
  deriving DecidableEq, Repr

/-- BindGroupLayoutBuilder from binding_builder.rs. -/
structure BindGroupLayoutBuilder where
  entries : List BindGroupLayoutEntry := []
  next_binding_index : Nat := 0
  deriving DecidableEq, Repr

namespace BindGroupLayoutBuilder

/-- BindGroupLayoutBuilder::new (Default::default). -/
def new : BindGroupLayoutBuilder := {}

/-- BindGroupLayoutBuilder::add_raw_binding: pushes the entry and sets the
auto-counter to the index of that entry plus one. -/
def add_raw_binding (self : BindGroupLayoutBuilder) (binding : BindGroupLayoutEntry) :
    BindGroupLayoutBuilder :=
  { entries := self.entries ++ [binding], next_binding_index := binding.binding + 1 }

/-- BindGroupLayoutBuilder::add_binding: uses the current auto-counter as the
binding index. -/
def add_binding (self : BindGroupLayoutBuilder) (visibility : ShaderStages) (ty : BindingType) :
    BindGroupLayoutBuilder :=
  self.add_raw_binding { binding := self.next_binding_index, visibility, ty, count := none }

/-- BindGroupLayoutBuilder::add_binding_compute. -/
def add_binding_compute (self : BindGroupLayoutBuilder) (ty : BindingType) : BindGroupLayoutBuilder :=
  self.add_binding ShaderStages.COMPUTE ty

/-- BindGroupLayoutBuilder::add_binding_fragment. -/
def add_binding_fragment (self : BindGroupLayoutBuilder) (ty : BindingType) : BindGroupLayoutBuilder :=
  self.add_binding ShaderStages.FRAGMENT ty

/-- BindGroupLayoutBuilder::create: compiles the layout (modelled as recording
the descriptor sent to the device) and pairs it with the entry list. -/
def create (self : BindGroupLayoutBuilder) (label : Option String) : BindGroupLayoutWithDesc :=
  { layout := { label := some ("BindGroupLayout: " ++ label.getD "unknown"), entries := self.entries }
    entries := self.entries }

/-- Convenience for iterated add_binding calls: folds add_binding over a list of
(visibility, type) arguments, one call per element, in order. -/
def add_bindings (self : BindGroupLayoutBuilder) (l : List (ShaderStages × BindingType)) :
    BindGroupLayoutBuilder :=
  l.foldl (fun b p => b.add_binding p.1 p.2) self

end BindGroupLayoutBuilder

/-- Model of wgpu::BindGroupEntry, generic over the binding-resource type. -/
structure BindGroupEntry (ρ : Type) where
  binding : Nat
  resource : ρ
  deriving DecidableEq, Repr

/-- Model of a created wgpu::BindGroup: the descriptor the code hands to
device.create_bind_group. -/
structure BindGroup (ρ : Type) where
  label : Option String
  layout : BindGroupLayout
  entries : List (BindGroupEntry ρ)
  deriving DecidableEq, Repr

/-- BindGroupBuilder from binding_builder.rs, generic over the resource type. -/
structure BindGroupBuilder (ρ : Type) where
  layout_with_desc : BindGroupLayoutWithDesc
  entries : List (BindGroupEntry ρ)

namespace BindGroupBuilder

variable {ρ : Type}

/-- BindGroupBuilder::new. -/
def new (layout_with_desc : BindGroupLayoutWithDesc) : BindGroupBuilder ρ :=
  { layout_with_desc, entries := [] }

/-- BindGroupBuilder::resource: asserts entries.len() < layout entries.len()
(a failed Rust assert is modelled as none), then pushes an entry reusing the
binding index of the layout entry at the same position. -/
def resource (self : BindGroupBuilder ρ) (r : ρ) : Option (BindGroupBuilder ρ) :=
  if h : self.entries.length < self.layout_with_desc.entries.length then
    some { self with
      entries := self.entries ++
        [{ binding := (self.layout_with_desc.entries.get ⟨self.entries.length, h⟩).binding
           resource := r }] }
  else
    none

/-- BindGroupBuilder::create: asserts the entry count equals the entry count of
the layout (failed assert modelled as none) before building the bind group. -/
def create (self : BindGroupBuilder ρ) (label : Option String) : Option (BindGroup ρ) :=
  if self.entries.length = self.layout_with_desc.entries.length then
    some { label := some ("BindGroup: " ++ label.getD "unknown")
           layout := self.layout_with_desc.layout
           entries := self.entries }
  else
    none

/-- Convenience for iterated resource calls, one per list element, in order;
propagates an assertion failure from any call. -/
def add_resources (self : BindGroupBuilder ρ) (rs : List ρ) : Option (BindGroupBuilder ρ) :=
  rs.foldlM resource self

end BindGroupBuilder

/-! Embedding of src/wgpu_utils/ping_pong_buffer.rs.  GPU buffers are modelled
by an abstract handle type ρ; the two buffers created by the constructor are
passed in as the handles the device allocation returned. -/

/-- Model of wgpu::BufferDescriptor (the fields the embedded code reads). -/
structure BufferDescriptor where
  label : Option String
  size : Nat
  usage : Nat
  mapped_at_creation : Bool
  deriving DecidableEq, Repr

/-- PingPongBuffer from ping_pong_buffer.rs. -/
structure PingPongBuffer (ρ : Type) where
  ping_buffer : ρ
  pong_buffer : ρ
  ping_pong_bind_group_layout_builder_descriptor : BindGroupLayoutWithDesc
  ping_pong_bind_group : BindGroup ρ
  pong_ping_bind_group : BindGroup ρ
  single_buffer_bind_group_layout_builder_descriptor : BindGroupLayoutWithDesc
  ping_bind_group : BindGroup ρ
  pong_bind_group : BindGroup ρ
  state : Bool
  deriving DecidableEq, Repr

namespace PingPongBuffer

variable {ρ : Type}

/-- PingPongBuffer::create_layout_and_bind_group.  The Option layer carries the
builder assertions, which this code never trips. -/
def create_layout_and_bind_group (ping_buffer pong_buffer : ρ)
    (single_buffer_visibility ping_pong_buffer_visibility : ShaderStages)
    (label : Option String) (size : Nat) :
    Option (BindGroupLayoutWithDesc × BindGroup ρ × BindGroup ρ ×
            BindGroupLayoutWithDesc × BindGroup ρ × BindGroup ρ) := do
  let label := label.getD "unknown"
  let ping_pong_bind_group_layout_builder_descriptor :=
    ((BindGroupLayoutBuilder.new.add_binding ping_pong_buffer_visibility
        (.Buffer (.Storage true) false (BufferSize.new size))).add_binding
        ping_pong_buffer_visibility
        (.Buffer (.Storage false) false (BufferSize.new size))).create
      (some (label ++ " ping_pong_bind_group_layout"))
  let b1 ← (BindGroupBuilder.new ping_pong_bind_group_layout_builder_descriptor).resource ping_buffer
  let b1 ← b1.resource pong_buffer
  let ping_pong_bind_group ← b1.create (some (label ++ " ping_pong_bind_group"))
  let b2 ← (BindGroupBuilder.new ping_pong_bind_group_layout_builder_descriptor).resource pong_buffer
  let b2 ← b2.resource ping_buffer
  let pong_ping_bind_group ← b2.create (some (label ++ " pong_ping_bind_group"))
  let single_buffer_bind_group_layout_builder_descriptor :=
    (BindGroupLayoutBuilder.new.add_binding single_buffer_visibility
        (.Buffer (.Storage true) false (BufferSize.new size))).create
      (some (label ++ " buffer_bind_group_layout"))
  let b3 ← (BindGroupBuilder.new single_buffer_bind_group_layout_builder_descriptor).resource ping_buffer
  let ping_bind_group ← b3.create (some (label ++ " ping_bind_group"))
  let b4 ← (BindGroupBuilder.new single_buffer_bind_group_layout_builder_descriptor).resource pong_buffer
  let pong_bind_group ← b4.create (some (label ++ " pong_bind_group"))
  pure (ping_pong_bind_group_layout_builder_descriptor, ping_pong_bind_group, pong_ping_bind_group,
        single_buffer_bind_group_layout_builder_descriptor, ping_bind_group, pong_bind_group)

/-- PingPongBuffer::from_buffer_descriptor.  The two device.create_buffer calls
are modelled by the distinct handles ping_buffer and pong_buffer the device
returned for the two allocations. -/
def from_buffer_descriptor (ping_buffer pong_buffer : ρ) (descriptor : BufferDescriptor)
    (single_buffer_visibility ping_pong_buffer_visibility : ShaderStages) :
    Option (PingPongBuffer ρ) := do
  let (ping_pong_bind_group_layout_builder_descriptor, ping_pong_bind_group, pong_ping_bind_group,
       single_buffer_bind_group_layout_builder_descriptor, ping_bind_group, pong_bind_group) ←
    create_layout_and_bind_group ping_buffer pong_buffer single_buffer_visibility
      ping_pong_buffer_visibility descriptor.label descriptor.size
  pure { ping_buffer, pong_buffer,
         ping_pong_bind_group_layout_builder_descriptor, ping_pong_bind_group, pong_ping_bind_group,
         single_buffer_bind_group_layout_builder_descriptor, ping_bind_group, pong_bind_group,
         state := false }

/-- PingPongBuffer::get_current_ping_pong_bind_group. -/
def get_current_ping_pong_bind_group (self : PingPongBuffer ρ) : BindGroup ρ :=
  if self.state then self.ping_pong_bind_group else self.pong_ping_bind_group

/-- PingPongBuffer::swap_state. -/
def swap_state (self : PingPongBuffer ρ) : PingPongBuffer ρ :=
  { self with state := !self.state }

/-- PingPongBuffer::get_current_source_bind_group. -/
def get_current_source_bind_group (self : PingPongBuffer ρ) : BindGroup ρ :=
  if self.state then self.ping_bind_group else self.pong_bind_group

/-- PingPongBuffer::get_current_target_bind_group. -/
def get_current_target_bind_group (self : PingPongBuffer ρ) : BindGroup ρ :=
  if self.state then self.pong_bind_group else self.ping_bind_group

/-- PingPongBuffer::get_current_source_buffer. -/
def get_current_source_buffer (self : PingPongBuffer ρ) : ρ :=
  if self.state then self.ping_buffer else self.pong_buffer

/-- PingPongBuffer::get_current_target_buffer. -/
def get_current_target_buffer (self : PingPongBuffer ρ) : ρ :=
  if self.state then self.pong_buffer else self.ping_buffer

end PingPongBuffer

/-! Embedding of src/wgpu_utils/ping_pong_texture.rs (the state machine and the
state-dependent accessors; texture views are abstract handles of type τ). -/

/-- PingPongTexture from ping_pong_texture.rs. -/
structure PingPongTexture (τ : Type) where
  label : Option String
  view_ping : τ
  view_pong : τ
  bind_group_layout : BindGroupLayoutWithDesc
  state : Bool
  deriving DecidableEq, Repr

namespace PingPongTexture

variable {τ : Type}

/-- PingPongTexture::toogle_state (name kept as in the source). -/
def toogle_state (self : PingPongTexture τ) : PingPongTexture τ :=
  { self with state := !self.state }

/-- PingPongTexture::get_target_texture_view. -/
def get_target_texture_view (self : PingPongTexture τ) : τ :=
  if self.state then self.view_ping else self.view_pong

/-- PingPongTexture::get_rendered_texture_view. -/
def get_rendered_texture_view (self : PingPongTexture τ) : τ :=
  if !self.state then self.view_ping else self.view_pong

end PingPongTexture

/-! Embedding of src/wgpu_utils/uniform_buffer.rs.  A Content value is abstract;
bytemuck::bytes_of is modelled by an explicit bytes_of function.  GPU queue
writes are returned explicitly. -/

/-- One queue.write_buffer call: target offset and the bytes written. -/
structure QueueWrite where
  offset : Nat
  data : List Nat
  deriving DecidableEq, Repr

/-- UniformBuffer from uniform_buffer.rs: the GPU buffer is represented by its
byte size (size_of::<Content>()), plus the CPU shadow of the last-written bytes. -/
structure UniformBuffer where
  buffer_size : Nat
  previous_content : List Nat
  deriving DecidableEq, Repr

namespace UniformBuffer

/-- UniformBuffer::new: empty shadow, buffer sized to the content type. -/
def new (size_of_content : Nat) : UniformBuffer :=
  { buffer_size := size_of_content, previous_content := [] }

/-- UniformBuffer::new_with_data: the initial content is written through the
mapped buffer at creation and recorded in the shadow. -/
def new_with_data {Content : Type} (size_of_content : Nat) (bytes_of : Content → List Nat)
    (initial_content : Content) : UniformBuffer :=
  { buffer_size := size_of_content, previous_content := bytes_of initial_content }

/-- UniformBuffer::update_content: skips the queue write when the new bytes
equal the shadow, otherwise performs one full write and updates the shadow.
Returns the updated wrapper and the queue writes performed. -/
def update_content {Content : Type} (bytes_of : Content → List Nat)
    (self : UniformBuffer) (content : Content) : UniformBuffer × List QueueWrite :=
  let new_content := bytes_of content
  if self.previous_content = new_content then
    (self, [])
  else
    ({ self with previous_content := new_content }, [{ offset := 0, data := new_content }])

end UniformBuffer

/-! Embedding of src/wgpu_utils/buffers.rs (the staging-buffer wrapper). -/

namespace BufferUsages
def MAP_READ : Nat := 1
def MAP_WRITE : Nat := 2
def COPY_SRC : Nat := 4
def COPY_DST : Nat := 8
end BufferUsages

/-- Model of the wgpu::Buffer created by create_staging_buffer: the descriptor
fields the code sets. -/
structure StagingBuffer where
  label : Option String
  size : Nat
  usage : Nat
  mapped_at_creation : Bool
  deriving DecidableEq, Repr

/-- create_staging_buffer from buffers.rs. -/
def create_staging_buffer (read_or_write : Bool) (size : Nat) : StagingBuffer :=
  { label := none
    size
    usage := Nat.lor BufferUsages.COPY_DST
      (match read_or_write with
       | true => BufferUsages.MAP_READ
       | false => BufferUsages.COPY_SRC)
    mapped_at_creation := false }

/-- StagingBufferWrapper from buffers.rs: the CPU mirror plus the staging
buffer.  The element type T is abstract; T::zeroed() and size_of::<T>() are
passed explicitly where the code uses them. -/
structure StagingBufferWrapper (T : Type) where
  values : List T
  staging_buffer : StagingBuffer
  deriving DecidableEq, Repr

namespace StagingBufferWrapper

variable {T : Type}

/-- StagingBufferWrapper::new: a zeroed mirror of the requested length and a
staging buffer of size * size_of::<T>() bytes. -/
def new (zeroed : T) (size_of_t : Nat) (read_or_write : Bool) (size : Nat) :
    StagingBufferWrapper T :=
  { values := List.replicate size zeroed
    staging_buffer := create_staging_buffer read_or_write (size * size_of_t) }

/-- StagingBufferWrapper::len. -/
def len (self : StagingBufferWrapper T) : Nat := self.values.length

/-- StagingBufferWrapper::bytes_size. -/
def bytes_size (self : StagingBufferWrapper T) (size_of_t : Nat) : Nat :=
  self.len * size_of_t

/-- StagingBufferWrapper::values_as_slice. -/
def values_as_slice (self : StagingBufferWrapper T) : List T := self.values

end StagingBufferWrapper

/-! Embedding of src/wgpu_utils/render_handles.rs.  The GPU driver is modelled
by oracle functions stored in the Instance: adapter requests, device requests,
surface creation, surface support and surface capabilities.  Surface
configuration calls are returned explicitly as a list of ConfigureCall values. -/

/-- Model of wgpu::TextureFormat: the two formats the code accepts, and an
abstract code for every other format. -/
inductive TextureFormat where
  | Rgba8Unorm
  | Bgra8Unorm
  | Other (code : Nat)
  deriving DecidableEq, Repr

/-- Model of wgpu::PowerPreference (variant None is named NoPreference here). -/
inductive PowerPreference where
  | NoPreference
  | LowPower
  | HighPerformance
  deriving DecidableEq, Repr

/-- Model of wgpu::PresentMode as an abstract code. -/
abbrev PresentMode := Nat

/-- Model of a wgpu::Surface handle. -/
structure Surface where
  id : Nat
  deriving DecidableEq, Repr

/-- Model of a wgpu::Adapter: identity, feature bitflags, and the driver
answers to is_surface_supported and get_capabilities queries, by surface id. -/
structure Adapter where
  id : Nat
  features : Nat
  supports_surface : Nat → Bool
  capability_formats : Nat → List TextureFormat

/-- wgpu::Adapter::is_surface_supported. -/
def Adapter.is_surface_supported (self : Adapter) (surface : Surface) : Bool :=
  self.supports_surface surface.id

/-- RenderHandleError from render_handles.rs.  Underlying wgpu error payloads
are modelled as abstract codes. -/
inductive RenderHandleError where
  | NoCompatibleDevice (code : Nat)
  | AdapterRequestError
  | SurfaceCreationError (code : Nat)
  | SurfaceTextureFormatRgbaBgraError
  | SurfaceSizeError (width : Nat) (height : Nat)
  deriving DecidableEq, Repr

/-- DeviceHandle from render_handles.rs; device and queue are abstract ids. -/
structure DeviceHandle where
  adapter : Adapter
  device : Nat
  queue : Nat

instance : Inhabited DeviceHandle :=
  ⟨{ adapter := { id := 0, features := 0, supports_surface := fun _ => false,
                  capability_formats := fun _ => [] }
     device := 0, queue := 0 }⟩

/-- Model of wgpu::RequestAdapterOptions. -/
structure RequestAdapterOptions where
  power_preference : PowerPreference
  force_fallback_adapter : Bool
  compatible_surface : Option Surface

namespace Features
/-- wgpu::Features::CLEAR_TEXTURE, modelled as a bit in the feature bitmask. -/
def CLEAR_TEXTURE : Nat := 2 ^ 23
end Features

namespace TextureUsages
def RENDER_ATTACHMENT : Nat := 16
end TextureUsages

/-- Model of the wgpu::Instance: the driver oracles the embedded code calls.
request_adapter returning none models an adapter-request failure;
request_device returning an error code models a device-request failure;
adapter_from_env models wgpu::util::initialize_adapter_from_env. -/
structure Instance where
  power_preference_env : Option PowerPreference
  adapter_from_env : Option Surface → Option Adapter
  request_adapter : RequestAdapterOptions → Option Adapter
  request_device : Adapter → Nat → Except Nat (Nat × Nat)
  create_surface : Nat → Except Nat Surface

/-- RenderInstance from render_handles.rs (the source field named instance is
called inst here because instance is a Lean keyword). -/
structure RenderInstance where
  inst : Instance
  devices : List DeviceHandle

/-- Model of wgpu::SurfaceConfiguration (alpha_mode Auto is code 0). -/
structure SurfaceConfiguration where
  usage : Nat
  format : TextureFormat
  width : Nat
  height : Nat
  present_mode : PresentMode
  desired_maximum_frame_latency : Nat
  alpha_mode : Nat
  view_formats : List TextureFormat
  deriving DecidableEq, Repr

/-- SurfaceHandle from render_handles.rs. -/
structure SurfaceHandle where
  surface : Surface
  config : SurfaceConfiguration
  device_handle_id : Nat
  deriving DecidableEq, Repr

/-- One wgpu::Surface::configure call: the surface, the device it was
configured against, and the configuration used. -/
structure ConfigureCall where
  surface_id : Nat
  device : Nat
  config : SurfaceConfiguration
  deriving DecidableEq, Repr

namespace SurfaceHandle

/-- SurfaceHandle::configure: records the surface.configure GPU call. -/
def configure (self : SurfaceHandle) (device : Nat) : List ConfigureCall :=
  [{ surface_id := self.surface.id, device, config := self.config }]

/-- SurfaceHandle::resize: rejects zero dimensions before touching the stored
configuration, otherwise updates it and reconfigures.  Returns the result, the
updated handle and the configure calls performed. -/
def resize (self : SurfaceHandle) (device : Nat) (width height : Nat) :
    Except RenderHandleError Unit × SurfaceHandle × List ConfigureCall :=
  if width = 0 ∨ height = 0 then
    (.error (.SurfaceSizeError width height), self, [])
  else
    let self := { self with config := { self.config with width, height } }
    (.ok (), self, self.configure device)

/-- SurfaceHandle::set_present_mode: updates the configuration and reconfigures
immediately. -/
def set_present_mode (self : SurfaceHandle) (device : Nat) (present_mode : PresentMode) :
    Except RenderHandleError Unit × SurfaceHandle × List ConfigureCall :=
  let self := { self with config := { self.config with present_mode } }
  (.ok (), self, self.configure device)

end SurfaceHandle

namespace RenderInstance

/-- RenderInstance::new_device: requests an adapter (the environment override
is taken when present, but a failure of the explicit request still propagates,
because Rust evaluates the unwrap_or argument eagerly and its question-mark
operator returns early), requests a device with the supported features
intersected with the wanted set, and appends a new handle. -/
def new_device (self : RenderInstance) (compatible_surface : Option Surface)
    (power_preference : Option PowerPreference) :
    Except RenderHandleError Nat × RenderInstance :=
  match self.inst.request_adapter
      { power_preference :=
          power_preference.getD (self.inst.power_preference_env.getD .NoPreference)
        force_fallback_adapter := false
        compatible_surface } with
  | none => (.error .AdapterRequestError, self)
  | some requested =>
    let adapter := (self.inst.adapter_from_env compatible_surface).getD requested
    let features := adapter.features
    let maybe_features := Features.CLEAR_TEXTURE
    match self.inst.request_device adapter (Nat.land features maybe_features) with
    | .error e => (.error (.NoCompatibleDevice e), self)
    | .ok dq =>
      (.ok self.devices.length,
       { self with devices := self.devices ++ [{ adapter, device := dq.1, queue := dq.2 }] })

/-- RenderInstance::device: scans the existing handles in order for the first
whose adapter supports the surface (or takes handle 0 when no surface was
requested and the pool is non-empty); otherwise defers to new_device. -/
def device (self : RenderInstance) (compatible_surface : Option Surface)
    (power_preference : Option PowerPreference) :
    Except RenderHandleError Nat × RenderInstance :=
  let compatible_device_index : Option Nat :=
    match compatible_surface with
    | some surface =>
      self.devices.findIdx? (fun device_handle => device_handle.adapter.is_surface_supported surface)
    | none => if self.devices.isEmpty then none else some 0
  match compatible_device_index with
  | some index => (.ok index, self)
  | none => self.new_device compatible_surface power_preference

/-- RenderInstance::create_render_surface: rejects zero dimensions first, then
creates the surface, resolves a device, picks the first Rgba8Unorm or
Bgra8Unorm capability format, builds the configuration and configures the
surface.  Returns the result, the updated pool and the configure calls. -/
def create_render_surface (self : RenderInstance) (window : Nat) (width height : Nat)
    (present_mode : PresentMode) (power_preference : Option PowerPreference) :
    Except RenderHandleError SurfaceHandle × RenderInstance × List ConfigureCall :=
  if width = 0 ∨ height = 0 then
    (.error (.SurfaceSizeError width height), self, [])
  else
    match self.inst.create_surface window with
    | .error e => (.error (.SurfaceCreationError e), self, [])
    | .ok surface =>
      match self.device (some surface) power_preference with
      | (.error e, self) => (.error e, self, [])
      | (.ok device_handle_id, self) =>
        let device_handle := self.devices.getD device_handle_id default
        let capabilities := device_handle.adapter.capability_formats surface.id
        match capabilities.find? (fun it =>
            match it with
            | .Rgba8Unorm => true
            | .Bgra8Unorm => true
            | _ => false) with
        | none => (.error .SurfaceTextureFormatRgbaBgraError, self, [])
        | some format =>
          let config : SurfaceConfiguration :=
            { usage := TextureUsages.RENDER_ATTACHMENT
              format, width, height, present_mode
              desired_maximum_frame_latency := 2
              alpha_mode := 0
              view_formats := [] }
          let surface_handle : SurfaceHandle := { surface, config, device_handle_id }
          (.ok surface_handle, self, surface_handle.configure device_handle.device)

end RenderInstance

/-! Concrete fixtures used to instantiate the theorems below on closed inputs. -/

/-- An adapter that supports only the surface with id 0. -/
def adapter_only0 : Adapter :=
  { id := 0, features := 0, supports_surface := fun n => n == 0
    capability_formats := fun _ => [.Bgra8Unorm] }

/-- An adapter that supports the surfaces with ids 1 and 2. -/
def adapter_12 : Adapter :=
  { id := 1, features := 0, supports_surface := fun n => n == 1 || n == 2
    capability_formats := fun _ => [.Rgba8Unorm] }

/-- An adapter that supports every surface. -/
def adapter_all : Adapter :=
  { id := 2, features := 0, supports_surface := fun _ => true
    capability_formats := fun _ => [.Rgba8Unorm] }

/-- A driver whose requests all fail. -/
def inst_failing : Instance :=
  { power_preference_env := none
    adapter_from_env := fun _ => none
    request_adapter := fun _ => none
    request_device := fun _ _ => .error 0
    create_surface := fun _ => .error 0 }

/-- A driver that hands out adapter_all and creates devices successfully. -/
def inst_creating : Instance :=
  { power_preference_env := none
    adapter_from_env := fun _ => none
    request_adapter := fun _ => some adapter_all
    request_device := fun _ _ => .ok (0, 0)
    create_surface := fun _ => .error 0 }

/-- A pool holding two device handles with distinct surface support. -/
def ri_two_devices : RenderInstance :=
  { inst := inst_failing
    devices := [{ adapter := adapter_only0, device := 0, queue := 0 },
                { adapter := adapter_12, device := 1, queue := 1 }] }

/-- An empty pool over a driver that can create devices. -/
def ri_empty : RenderInstance := { inst := inst_creating, devices := [] }

/-- The pool obtained from ri_empty after one successful device creation. -/
def ri_after_create : RenderInstance :=
  { inst := inst_creating
    devices := [{ adapter := adapter_all, device := 0, queue := 0 }] }

/-- A concrete surface handle. -/
def sh_fixture : SurfaceHandle :=
  { surface := { id := 0 }
    config := { usage := TextureUsages.RENDER_ATTACHMENT, format := .Rgba8Unorm
                width := 4, height := 4, present_mode := 0
                desired_maximum_frame_latency := 2, alpha_mode := 0, view_formats := [] }
    device_handle_id := 0 }

/-- A concrete buffer descriptor. -/
def descriptor_fixture : BufferDescriptor :=
  { label := none, size := 4, usage := 0, mapped_at_creation := false }

/-- The ping-pong buffer built from descriptor_fixture over Nat buffer handles 0 and 1. -/
def ppb_fixture : PingPongBuffer Nat :=
  (PingPongBuffer.from_buffer_descriptor 0 1 descriptor_fixture
    ShaderStages.COMPUTE ShaderStages.COMPUTE).get rfl

/-! Theorems. -/

/-- Auto-assignment law of the layout builder: folding add_binding calls appends
entries whose binding indices count up from the current auto-counter, with
visibility and type in call order. -/
theorem add_bindings_spec (l : List (ShaderStages × BindingType)) :
    ∀ b : BindGroupLayoutBuilder,
      (b.add_bindings l).entries.map BindGroupLayoutEntry.binding
          = b.entries.map BindGroupLayoutEntry.binding
            ++ List.range' b.next_binding_index l.length
      ∧ (b.add_bindings l).entries.map (fun e => (e.visibility, e.ty))
          = b.entries.map (fun e => (e.visibility, e.ty)) ++ l := by
  induction l with
  | nil =>
    intro b
    simp [BindGroupLayoutBuilder.add_bindings]
  | cons p t ih =>
    intro b
    obtain ⟨h1, h2⟩ := ih (b.add_binding p.1 p.2)
    simp only [BindGroupLayoutBuilder.add_bindings, List.foldl_cons] at h1 h2 ⊢
    refine ⟨?_, ?_⟩
    · rw [h1]
      simp [BindGroupLayoutBuilder.add_binding, BindGroupLayoutBuilder.add_raw_binding,
        List.range'_succ]
    · rw [h2]
      simp [BindGroupLayoutBuilder.add_binding, BindGroupLayoutBuilder.add_raw_binding]

/-- C6: N add_binding calls on a fresh BindGroupLayoutBuilder produce an entry
list of length N with binding indices exactly 0..N-1 in call order, entries
carrying the call arguments in order, and create returns that entry list with
order preserved. -/
theorem c6_fresh_builder_sequential_indices
    (l : List (ShaderStages × BindingType)) (label : Option String) :
    (BindGroupLayoutBuilder.new.add_bindings l).entries.length = l.length
    ∧ (BindGroupLayoutBuilder.new.add_bindings l).entries.map BindGroupLayoutEntry.binding
        = List.range l.length
    ∧ (BindGroupLayoutBuilder.new.add_bindings l).entries.map (fun e => (e.visibility, e.ty)) = l
    ∧ ((BindGroupLayoutBuilder.new.add_bindings l).create label).entries
        = (BindGroupLayoutBuilder.new.add_bindings l).entries := by
  obtain ⟨h1, h2⟩ := add_bindings_spec l BindGroupLayoutBuilder.new
  refine ⟨?_, ?_, ?_, rfl⟩
  · have := congrArg List.length h2
    simpa [BindGroupLayoutBuilder.new] using this
  · rw [h1]
    simp [BindGroupLayoutBuilder.new, List.range_eq_range']
  · rw [h2]
    simp [BindGroupLayoutBuilder.new]

/-- C2 counterexample: after add_raw_binding with index 5 followed by
add_raw_binding with the smaller index 2, a subsequent add_binding assigns
index 3 (last-set index plus one), not 6 (highest-set index plus one) as the
claim states. -/
theorem c2_counterexample :
    (((BindGroupLayoutBuilder.new.add_raw_binding
          { binding := 5, visibility := ShaderStages.COMPUTE
            ty := .Buffer .Uniform false none, count := none }).add_raw_binding
          { binding := 2, visibility := ShaderStages.COMPUTE
            ty := .Buffer .Uniform false none, count := none }).add_binding
          ShaderStages.COMPUTE (.Buffer .Uniform false none)).entries.map
        BindGroupLayoutEntry.binding = [5, 2, 3]
    ∧ (((BindGroupLayoutBuilder.new.add_raw_binding
          { binding := 5, visibility := ShaderStages.COMPUTE
            ty := .Buffer .Uniform false none, count := none }).add_raw_binding
          { binding := 2, visibility := ShaderStages.COMPUTE
            ty := .Buffer .Uniform false none, count := none }).add_binding
          ShaderStages.COMPUTE (.Buffer .Uniform false none)).entries.map
        BindGroupLayoutEntry.binding ≠ [5, 2, 6] := by
  refine ⟨rfl, ?_⟩
  decide

/-- C2 amended: add_binding assigns the auto-counter, and add_raw_binding sets
the auto-counter to its own (most recently set) index plus one, not to the
highest index plus one: after raw bindings with indices i then j, the next
add_binding assigns j + 1. -/
theorem c2_amended_counter_follows_last_raw_binding
    (b : BindGroupLayoutBuilder) (e1 e2 : BindGroupLayoutEntry)
    (visibility : ShaderStages) (ty : BindingType) :
    (((b.add_raw_binding e1).add_raw_binding e2).add_binding visibility ty).entries.map
        BindGroupLayoutEntry.binding
      = b.entries.map BindGroupLayoutEntry.binding ++ [e1.binding, e2.binding, e2.binding + 1]
    ∧ ∀ (b2 : BindGroupLayoutBuilder) (e : BindGroupLayoutEntry),
        (b2.add_raw_binding e).next_binding_index = e.binding + 1 := by
  refine ⟨?_, fun b2 e => rfl⟩
  simp [BindGroupLayoutBuilder.add_binding, BindGroupLayoutBuilder.add_raw_binding]

/-- Unfolding equation for add_resources on nil. -/
theorem add_resources_nil {ρ : Type} (b : BindGroupBuilder ρ) :
    b.add_resources [] = some b := rfl

/-- Unfolding equation for add_resources on cons. -/
theorem add_resources_cons {ρ : Type} (b : BindGroupBuilder ρ) (r : ρ) (t : List ρ) :
    b.add_resources (r :: t) = (b.resource r).bind fun b2 => b2.add_resources t := rfl

/-- When the resource calls do not exceed the entry count of the layout, they all
succeed, preserve the layout, and grow the entry list accordingly. -/
theorem add_resources_some {ρ : Type} (rs : List ρ) :
    ∀ b : BindGroupBuilder ρ,
      b.entries.length + rs.length ≤ b.layout_with_desc.entries.length →
      ∃ b2, b.add_resources rs = some b2
        ∧ b2.entries.length = b.entries.length + rs.length
        ∧ b2.layout_with_desc = b.layout_with_desc := by
  induction rs with
  | nil =>
    intro b _
    exact ⟨b, rfl, by simp, rfl⟩
  | cons r t ih =>
    intro b h
    simp only [List.length_cons] at h
    have hlt : b.entries.length < b.layout_with_desc.entries.length := by omega
    have hres : b.resource r = some ⟨b.layout_with_desc,
        b.entries ++ [⟨(b.layout_with_desc.entries.get ⟨b.entries.length, hlt⟩).binding, r⟩]⟩ :=
      dif_pos hlt
    obtain ⟨b2, hb2, hlen, hlay⟩ := ih ⟨b.layout_with_desc,
        b.entries ++ [⟨(b.layout_with_desc.entries.get ⟨b.entries.length, hlt⟩).binding, r⟩]⟩
      (by simp only [List.length_append, List.length_cons, List.length_nil]; omega)
    refine ⟨b2, ?_, ?_, hlay⟩
    · rw [add_resources_cons, hres, Option.some_bind]
      exact hb2
    · simp only [List.length_append, List.length_cons, List.length_nil] at hlen ⊢
      omega

/-- When the resource calls exceed the entry count of the layout (starting from a
builder not already overfull), some resource call trips its assertion. -/
theorem add_resources_none {ρ : Type} (rs : List ρ) :
    ∀ b : BindGroupBuilder ρ,
      b.entries.length ≤ b.layout_with_desc.entries.length →
      b.layout_with_desc.entries.length < b.entries.length + rs.length →
      b.add_resources rs = none := by
  induction rs with
  | nil =>
    intro b h1 h2
    simp only [List.length_nil, Nat.add_zero] at h2
    omega
  | cons r t ih =>
    intro b h1 h2
    simp only [List.length_cons] at h2
    rw [add_resources_cons]
    by_cases hlt : b.entries.length < b.layout_with_desc.entries.length
    · have hres : b.resource r = some ⟨b.layout_with_desc,
          b.entries ++ [⟨(b.layout_with_desc.entries.get ⟨b.entries.length, hlt⟩).binding, r⟩]⟩ :=
        dif_pos hlt
      rw [hres, Option.some_bind]
      exact ih _
        (by simp only [List.length_append, List.length_cons, List.length_nil]; omega)
        (by simp only [List.length_append, List.length_cons, List.length_nil]; omega)
    · have hres : b.resource r = none := dif_neg hlt
      rw [hres, Option.none_bind]

/-- C7: building a bind group from a layout reaches creation exactly when the
number of resource calls equals the entry count of the layout; any mismatch is
caught by an assertion in the builder itself, before the bind group value (the
GPU call argument) is ever produced. -/
theorem c7_bind_group_resource_count_contract {ρ : Type}
    (lay : BindGroupLayoutWithDesc) (rs : List ρ) (label : Option String) :
    (((BindGroupBuilder.new lay).add_resources rs).bind fun b => b.create label).isSome
      ↔ rs.length = lay.entries.length := by
  constructor
  · intro h
    by_contra hne
    rcases Nat.lt_or_ge rs.length lay.entries.length with hlt | hge
    · obtain ⟨b2, hb2, hlen, hlay⟩ :=
        add_resources_some rs (BindGroupBuilder.new lay)
          (by simp only [BindGroupBuilder.new, List.length_nil]; omega)
      have hlen2 : b2.entries.length = rs.length := by
        simpa [BindGroupBuilder.new] using hlen
      have hlay2 : b2.layout_with_desc = lay := by
        simpa [BindGroupBuilder.new] using hlay
      rw [hb2] at h
      simp only [Option.some_bind, BindGroupBuilder.create] at h
      rw [if_neg (by rw [hlen2, hlay2]; exact hne)] at h
      simp at h
    · rw [add_resources_none rs (BindGroupBuilder.new lay)
        (by simp [BindGroupBuilder.new])
        (by simp only [BindGroupBuilder.new, List.length_nil]; omega)] at h
      simp at h
  · intro he
    obtain ⟨b2, hb2, hlen, hlay⟩ :=
      add_resources_some rs (BindGroupBuilder.new lay)
        (by simp [BindGroupBuilder.new, he])
    have hlen2 : b2.entries.length = rs.length := by
      simpa [BindGroupBuilder.new] using hlen
    have hlay2 : b2.layout_with_desc = lay := by
      simpa [BindGroupBuilder.new] using hlay
    rw [hb2]
    simp only [Option.some_bind, BindGroupBuilder.create]
    rw [if_pos (by rw [hlen2, hlay2]; exact he)]
    simp

/-- C8: two consecutive state toggles are the identity on both ping-pong
wrappers, so every state-dependent accessor returns the same resource as before
the two calls. -/
theorem c8_two_toggles_restore_state :
    (∀ (ρ : Type) (p : PingPongBuffer ρ),
      p.swap_state.swap_state = p
      ∧ p.swap_state.swap_state.state = p.state
      ∧ p.swap_state.swap_state.get_current_source_buffer = p.get_current_source_buffer
      ∧ p.swap_state.swap_state.get_current_target_buffer = p.get_current_target_buffer
      ∧ p.swap_state.swap_state.get_current_ping_pong_bind_group
          = p.get_current_ping_pong_bind_group
      ∧ p.swap_state.swap_state.get_current_source_bind_group = p.get_current_source_bind_group
      ∧ p.swap_state.swap_state.get_current_target_bind_group = p.get_current_target_bind_group)
    ∧ (∀ (τ : Type) (t : PingPongTexture τ),
      t.toogle_state.toogle_state = t
      ∧ t.toogle_state.toogle_state.state = t.state
      ∧ t.toogle_state.toogle_state.get_target_texture_view = t.get_target_texture_view
      ∧ t.toogle_state.toogle_state.get_rendered_texture_view = t.get_rendered_texture_view) := by
  constructor
  · intro ρ p
    have h : p.swap_state.swap_state = p := by
      cases p
      simp [PingPongBuffer.swap_state]
    exact ⟨h, by rw [h], by rw [h], by rw [h], by rw [h], by rw [h], by rw [h]⟩
  · intro τ t
    have h : t.toogle_state.toogle_state = t := by
      cases t
      simp [PingPongTexture.toogle_state]
    exact ⟨h, by rw [h], by rw [h], by rw [h]⟩

/-- C5: update_content performs zero queue writes when the content bytes equal
the shadow (leaving the shadow unchanged), and exactly one full-buffer write
otherwise, setting the shadow to the new bytes, so an immediate second call
with the same content performs no write. -/
theorem c5_update_content_write_policy
    {Content : Type} (bytes_of : Content → List Nat) (ub : UniformBuffer) (content : Content) :
    (bytes_of content = ub.previous_content →
      ub.update_content bytes_of content = (ub, []))
    ∧ (bytes_of content ≠ ub.previous_content →
      (ub.update_content bytes_of content).2 = [{ offset := 0, data := bytes_of content }]
      ∧ (ub.update_content bytes_of content).1.previous_content = bytes_of content
      ∧ (ub.update_content bytes_of content).1.buffer_size = ub.buffer_size
      ∧ ((bytes_of content).length = ub.buffer_size →
          ∀ w ∈ (ub.update_content bytes_of content).2,
            w.offset = 0 ∧ w.data.length = ub.buffer_size))
    ∧ ((ub.update_content bytes_of content).1.update_content bytes_of content).2 = [] := by
  refine ⟨?_, ?_, ?_⟩
  · intro h
    simp [UniformBuffer.update_content, h.symm]
  · intro h
    have hne : ¬ ub.previous_content = bytes_of content := fun hx => h hx.symm
    refine ⟨?_, ?_, ?_, ?_⟩
    · simp [UniformBuffer.update_content, hne]
    · simp [UniformBuffer.update_content, hne]
    · simp [UniformBuffer.update_content, hne]
    · intro hlen w hw
      simp [UniformBuffer.update_content, hne] at hw
      subst hw
      exact ⟨rfl, hlen⟩
  · by_cases h : ub.previous_content = bytes_of content
    · simp [UniformBuffer.update_content, h]
    · simp [UniformBuffer.update_content, h]

/-- C5 witness: a concrete uniform buffer with an empty shadow takes exactly
one write of the new bytes, and a second identical update writes nothing. -/
theorem c5_witness :
    ((UniformBuffer.new 1).update_content (fun n => [n]) 7).2 = [{ offset := 0, data := [7] }]
    ∧ (((UniformBuffer.new 1).update_content (fun n => [n]) 7).1.update_content
        (fun n => [n]) 7).2 = [] :=
  ⟨((c5_update_content_write_policy (fun n => [n]) (UniformBuffer.new 1) 7).2.1
      (by decide)).1,
   (c5_update_content_write_policy (fun n => [n]) (UniformBuffer.new 1) 7).2.2⟩

/-- C9: immediately after StagingBufferWrapper::new the CPU mirror has the
requested length with every element zeroed, the staging buffer holds
size * size_of::<T>() bytes, and mirror and staging buffer agree in length. -/
theorem c9_staging_wrapper_new_agrees
    (T : Type) (zeroed : T) (size_of_t : Nat) (read_or_write : Bool) (size : Nat) :
    (StagingBufferWrapper.new zeroed size_of_t read_or_write size).values_as_slice.length = size
    ∧ (∀ x ∈ (StagingBufferWrapper.new zeroed size_of_t read_or_write size).values_as_slice,
        x = zeroed)
    ∧ (StagingBufferWrapper.new zeroed size_of_t read_or_write size).staging_buffer.size
        = size * size_of_t
    ∧ (StagingBufferWrapper.new zeroed size_of_t read_or_write size).values.length * size_of_t
        = (StagingBufferWrapper.new zeroed size_of_t read_or_write size).staging_buffer.size := by
  refine ⟨?_, ?_, rfl, ?_⟩
  · simp [StagingBufferWrapper.new, StagingBufferWrapper.values_as_slice]
  · intro x hx
    exact List.eq_of_mem_replicate hx
  · simp [StagingBufferWrapper.new, StagingBufferWrapper.values_as_slice, create_staging_buffer]

/-- C9 witness: the wrapper fixture over three 4-byte elements. -/
theorem c9_witness :
    (StagingBufferWrapper.new (0 : Nat) 4 true 3).values_as_slice.length = 3
    ∧ (∀ x ∈ (StagingBufferWrapper.new (0 : Nat) 4 true 3).values_as_slice, x = 0)
    ∧ (StagingBufferWrapper.new (0 : Nat) 4 true 3).staging_buffer.size = 3 * 4
    ∧ (StagingBufferWrapper.new (0 : Nat) 4 true 3).values.length * 4
        = (StagingBufferWrapper.new (0 : Nat) 4 true 3).staging_buffer.size :=
  c9_staging_wrapper_new_agrees Nat 0 4 true 3

/-- C7 witness: one resource call against a one-entry layout reaches creation. -/
theorem c7_witness :
    (((BindGroupBuilder.new
        ((BindGroupLayoutBuilder.new.add_binding ShaderStages.COMPUTE
          (.Buffer .Uniform false none)).create none)).add_resources
        ([42] : List Nat)).bind fun b => b.create none).isSome :=
  (c7_bind_group_resource_count_contract
    ((BindGroupLayoutBuilder.new.add_binding ShaderStages.COMPUTE
      (.Buffer .Uniform false none)).create none) ([42] : List Nat) none).mpr rfl

/-- Unfolding equation for findIdx? on cons with an explicit start index. -/
theorem findIdx?_cons_start {α : Type} (p : α → Bool) (a : α) (t : List α) (s : Nat) :
    List.findIdx? p (a :: t) s = if p a then some s else List.findIdx? p t (s + 1) := rfl

/-- findIdx? returns the first index whose element satisfies the predicate. -/
theorem findIdx?_eq_some_of_first {α : Type} [Inhabited α] (p : α → Bool) (l : List α) :
    ∀ i s : Nat, i < l.length →
      p (l.getD i default) = true →
      (∀ j, j < i → p (l.getD j default) = false) →
      l.findIdx? p s = some (s + i) := by
  induction l with
  | nil =>
    intro i s hi _ _
    exact absurd hi (Nat.not_lt_zero i)
  | cons a t ih =>
    intro i s hi hp hf
    rw [findIdx?_cons_start]
    cases i with
    | zero =>
      simp only [List.getD_cons_zero] at hp
      rw [if_pos hp]
      simp
    | succ i =>
      have ha : p a = false := by simpa using hf 0 (Nat.succ_pos i)
      rw [if_neg (by simp [ha])]
      have hrec := ih i (s + 1) (by simpa using hi) (by simpa using hp)
        (fun j hj => by simpa using hf (j + 1) (Nat.succ_lt_succ hj))
      rw [hrec]
      congr 1
      omega

/-- findIdx? returns none when no element satisfies the predicate. -/
theorem findIdx?_eq_none_of_all {α : Type} [Inhabited α] (p : α → Bool) (l : List α) :
    ∀ s : Nat, (∀ j, j < l.length → p (l.getD j default) = false) →
      l.findIdx? p s = none := by
  induction l with
  | nil =>
    intro s _
    rfl
  | cons a t ih =>
    intro s hall
    rw [findIdx?_cons_start]
    have ha : p a = false := by simpa using hall 0 (by simp)
    rw [if_neg (by simp [ha])]
    exact ih (s + 1) (fun j hj => by simpa using hall (j + 1) (by simpa using Nat.succ_lt_succ hj))

/-- The device scan hits: when the pool contains a first supported handle, it is
returned unchanged. -/
theorem device_scan_hit (ri : RenderInstance) (s : Surface) (pp : Option PowerPreference)
    (i : Nat) (hi : i < ri.devices.length)
    (hsup : (ri.devices.getD i default).adapter.is_surface_supported s = true)
    (hfirst : ∀ j, j < i → (ri.devices.getD j default).adapter.is_surface_supported s = false) :
    ri.device (some s) pp = (.ok i, ri) := by
  have hfind : ri.devices.findIdx?
      (fun device_handle => device_handle.adapter.is_surface_supported s) = some i := by
    simpa using findIdx?_eq_some_of_first
      (fun device_handle => device_handle.adapter.is_surface_supported s)
      ri.devices i 0 hi hsup hfirst
  simp [RenderInstance.device, hfind]

/-- The device scan misses: when no handle supports the surface and the call
still returns ok, a new handle was appended and its index returned. -/
theorem device_scan_miss (ri : RenderInstance) (s : Surface) (pp : Option PowerPreference)
    (hall : ∀ j, j < ri.devices.length →
      (ri.devices.getD j default).adapter.is_surface_supported s = false)
    (r : Nat) (ri2 : RenderInstance) (hdev : ri.device (some s) pp = (.ok r, ri2)) :
    r = ri.devices.length ∧ ∃ dh, ri2.devices = ri.devices ++ [dh] := by
  have hfind : ri.devices.findIdx?
      (fun device_handle => device_handle.adapter.is_surface_supported s) = none :=
    findIdx?_eq_none_of_all _ ri.devices 0 hall
  simp only [RenderInstance.device, hfind] at hdev
  simp only [RenderInstance.new_device] at hdev
  rcases hreq : ri.inst.request_adapter
      { power_preference := pp.getD (ri.inst.power_preference_env.getD .NoPreference)
        force_fallback_adapter := false
        compatible_surface := some s } with _ | requested
  · simp only [hreq] at hdev
    simp at hdev
  · simp only [hreq] at hdev
    rcases hdq : ri.inst.request_device ((ri.inst.adapter_from_env (some s)).getD requested)
        (Nat.land ((ri.inst.adapter_from_env (some s)).getD requested).features
          Features.CLEAR_TEXTURE) with e | dq
    · simp only [hdq] at hdev
      simp at hdev
    · simp only [hdq] at hdev
      simp only [Prod.mk.injEq, Except.ok.injEq] at hdev
      obtain ⟨hr, hri2⟩ := hdev
      subst hr
      exact ⟨rfl, ⟨_, by rw [← hri2]⟩⟩

/-- C3: with a requested surface, the pool is scanned in order and the first
handle whose adapter supports the surface is returned without creating a
device; when no handle is compatible, a successful call appends exactly one new
handle and returns its index; and after creating the first device from an empty
pool, a second surface supported by the adapter of that handle reuses index 0. -/
theorem c3_device_scan_and_reuse (ri : RenderInstance) (s : Surface)
    (pp : Option PowerPreference) :
    (∀ i, i < ri.devices.length →
      (ri.devices.getD i default).adapter.is_surface_supported s = true →
      (∀ j, j < i → (ri.devices.getD j default).adapter.is_surface_supported s = false) →
      ri.device (some s) pp = (.ok i, ri))
    ∧ ((∀ j, j < ri.devices.length →
          (ri.devices.getD j default).adapter.is_surface_supported s = false) →
        ∀ r ri2, ri.device (some s) pp = (.ok r, ri2) →
          r = ri.devices.length ∧ ∃ dh, ri2.devices = ri.devices ++ [dh])
    ∧ (ri.devices = [] →
        ∀ i ri2 (s2 : Surface) (pp2 : Option PowerPreference),
          ri.device (some s) pp = (.ok i, ri2) →
          (ri2.devices.getD i default).adapter.is_surface_supported s2 = true →
          ri2.device (some s2) pp2 = (.ok i, ri2)) := by
  refine ⟨fun i hi hsup hfirst => device_scan_hit ri s pp i hi hsup hfirst,
    fun hall r ri2 hdev => device_scan_miss ri s pp hall r ri2 hdev,
    fun hemp i ri2 s2 pp2 hdev hsup2 => ?_⟩
  have hall : ∀ j, j < ri.devices.length →
      (ri.devices.getD j default).adapter.is_surface_supported s = false := by
    rw [hemp]
    intro j hj
    exact absurd hj (Nat.not_lt_zero j)
  obtain ⟨hr, dh, hds⟩ := device_scan_miss ri s pp hall i ri2 hdev
  rw [hemp] at hr
  subst hr
  simp only [List.length_nil] at hsup2 ⊢
  have hlen : ri2.devices.length = 1 := by
    rw [hds, hemp]
    rfl
  exact device_scan_hit ri2 s2 pp2 0 (by omega) hsup2
    (fun j hj => absurd hj (Nat.not_lt_zero j))

/-- C3 witness: in a two-device pool where only the second adapter supports
surface 1, the scan returns index 1 without creating a device; creating the
first device from an empty pool and then requesting a second supported surface
reuses index 0. -/
theorem c3_witness :
    ri_two_devices.device (some { id := 1 }) none = (.ok 1, ri_two_devices)
    ∧ ri_after_create.device (some { id := 7 }) none = (.ok 0, ri_after_create) :=
  ⟨(c3_device_scan_and_reuse ri_two_devices { id := 1 } none).1 1 (by decide) rfl
    (fun j hj => by
      have : j = 0 := by omega
      subst this
      rfl),
   (c3_device_scan_and_reuse ri_empty { id := 5 } none).2.2 rfl 0 ri_after_create
    { id := 7 } none rfl rfl⟩

/-- C4: zero width or height makes both create_render_surface and resize return
SurfaceSizeError(width, height) with no surface configuration call, the pool
and (for resize) the stored configuration left unchanged. -/
theorem c4_zero_size_rejected
    (ri : RenderInstance) (window : Nat) (width height : Nat) (pm : PresentMode)
    (pp : Option PowerPreference) (sh : SurfaceHandle) (device : Nat)
    (h : width = 0 ∨ height = 0) :
    ri.create_render_surface window width height pm pp
        = (.error (.SurfaceSizeError width height), ri, [])
    ∧ sh.resize device width height = (.error (.SurfaceSizeError width height), sh, []) :=
  ⟨if_pos h, if_pos h⟩

/-- C4 witness: width 0 with height 7 is rejected by both operations on
concrete fixtures. -/
theorem c4_witness :
    ri_two_devices.create_render_surface 3 0 7 0 none
        = (.error (.SurfaceSizeError 0 7), ri_two_devices, [])
    ∧ sh_fixture.resize 0 0 7 = (.error (.SurfaceSizeError 0 7), sh_fixture, []) :=
  c4_zero_size_rejected ri_two_devices 3 0 7 0 none sh_fixture 0 (Or.inl rfl)

/-- C10: a device request without a surface on a non-empty pool returns index 0
and leaves the pool unchanged, for every power preference. -/
theorem c10_headless_request_reuses_device_zero
    (ri : RenderInstance) (pp : Option PowerPreference) (h : ri.devices ≠ []) :
    ri.device none pp = (.ok 0, ri) := by
  have hne : ri.devices.isEmpty = false := by
    obtain ⟨d, ds, hds⟩ := List.exists_cons_of_ne_nil h
    rw [hds]
    rfl
  simp [RenderInstance.device, hne]

/-- C10 witness: the two-device pool answers a surfaceless request with index 0. -/
theorem c10_witness :
    ri_two_devices.device none (some .HighPerformance) = (.ok 0, ri_two_devices) :=
  c10_headless_request_reuses_device_zero ri_two_devices (some .HighPerformance)
    (by simp [ri_two_devices])

/-- Iterating swap_state only ever changes the state field. -/
theorem swap_state_iterate_shape {ρ : Type} (n : Nat) (p : PingPongBuffer ρ) :
    ∃ b, PingPongBuffer.swap_state^[n] p = { p with state := b } := by
  induction n with
  | zero => exact ⟨p.state, rfl⟩
  | succ n ih =>
    obtain ⟨b, hb⟩ := ih
    refine ⟨!b, ?_⟩
    rw [Function.iterate_succ_apply', hb]
    rfl

/-- C1: for every reachable state of a PingPongBuffer (any number of swap_state
calls after construction), the dual-resource layout has exactly two entries,
read_only true first and read_only false second, and the current ping-pong bind
group binds the current source buffer at the read_only entry and the current
target buffer at the writable entry; one swap_state call exchanges the source
and target buffers. -/
theorem c1_ping_pong_read_write_consistency {ρ : Type} (ping pong : ρ)
    (d : BufferDescriptor) (sv pv : ShaderStages) (ppb0 : PingPongBuffer ρ) (n : Nat)
    (p : PingPongBuffer ρ)
    (h : PingPongBuffer.from_buffer_descriptor ping pong d sv pv = some ppb0)
    (hp : p = PingPongBuffer.swap_state^[n] ppb0) :
    (∃ e0 e1 : BindGroupLayoutEntry,
      p.ping_pong_bind_group_layout_builder_descriptor.entries = [e0, e1]
      ∧ e0.ty.storage_read_only = some true
      ∧ e1.ty.storage_read_only = some false
      ∧ p.get_current_ping_pong_bind_group.entries =
          [{ binding := e0.binding, resource := p.get_current_source_buffer },
           { binding := e1.binding, resource := p.get_current_target_buffer }])
    ∧ p.swap_state.get_current_source_buffer = p.get_current_target_buffer
    ∧ p.swap_state.get_current_target_buffer = p.get_current_source_buffer := by
  have hval : PingPongBuffer.from_buffer_descriptor ping pong d sv pv = some
      { ping_buffer := ping
        pong_buffer := pong
        ping_pong_bind_group_layout_builder_descriptor :=
          { layout :=
              { label := some ("BindGroupLayout: "
                  ++ (d.label.getD "unknown" ++ " ping_pong_bind_group_layout"))
                entries :=
                  [{ binding := 0, visibility := pv
                     ty := .Buffer (.Storage true) false (BufferSize.new d.size), count := none },
                   { binding := 1, visibility := pv
                     ty := .Buffer (.Storage false) false (BufferSize.new d.size), count := none }] }
            entries :=
              [{ binding := 0, visibility := pv
                 ty := .Buffer (.Storage true) false (BufferSize.new d.size), count := none },
               { binding := 1, visibility := pv
                 ty := .Buffer (.Storage false) false (BufferSize.new d.size), count := none }] }
        ping_pong_bind_group :=
          { label := some ("BindGroup: " ++ (d.label.getD "unknown" ++ " ping_pong_bind_group"))
            layout :=
              { label := some ("BindGroupLayout: "
                  ++ (d.label.getD "unknown" ++ " ping_pong_bind_group_layout"))
                entries :=
                  [{ binding := 0, visibility := pv
                     ty := .Buffer (.Storage true) false (BufferSize.new d.size), count := none },
                   { binding := 1, visibility := pv
                     ty := .Buffer (.Storage false) false (BufferSize.new d.size), count := none }] }
            entries := [{ binding := 0, resource := ping }, { binding := 1, resource := pong }] }
        pong_ping_bind_group :=
          { label := some ("BindGroup: " ++ (d.label.getD "unknown" ++ " pong_ping_bind_group"))
            layout :=
              { label := some ("BindGroupLayout: "
                  ++ (d.label.getD "unknown" ++ " ping_pong_bind_group_layout"))
                entries :=
                  [{ binding := 0, visibility := pv
                     ty := .Buffer (.Storage true) false (BufferSize.new d.size), count := none },
                   { binding := 1, visibility := pv
                     ty := .Buffer (.Storage false) false (BufferSize.new d.size), count := none }] }
            entries := [{ binding := 0, resource := pong }, { binding := 1, resource := ping }] }
        single_buffer_bind_group_layout_builder_descriptor :=
          { layout :=
              { label := some ("BindGroupLayout: "
                  ++ (d.label.getD "unknown" ++ " buffer_bind_group_layout"))
                entries :=
                  [{ binding := 0, visibility := sv
                     ty := .Buffer (.Storage true) false (BufferSize.new d.size), count := none }] }
            entries :=
              [{ binding := 0, visibility := sv
                 ty := .Buffer (.Storage true) false (BufferSize.new d.size), count := none }] }
        ping_bind_group :=
          { label := some ("BindGroup: " ++ (d.label.getD "unknown" ++ " ping_bind_group"))
            layout :=
              { label := some ("BindGroupLayout: "
                  ++ (d.label.getD "unknown" ++ " buffer_bind_group_layout"))
                entries :=
                  [{ binding := 0, visibility := sv
                     ty := .Buffer (.Storage true) false (BufferSize.new d.size), count := none }] }
            entries := [{ binding := 0, resource := ping }] }
        pong_bind_group :=
          { label := some ("BindGroup: " ++ (d.label.getD "unknown" ++ " pong_bind_group"))
            layout :=
              { label := some ("BindGroupLayout: "
                  ++ (d.label.getD "unknown" ++ " buffer_bind_group_layout"))
                entries :=
                  [{ binding := 0, visibility := sv
                     ty := .Buffer (.Storage true) false (BufferSize.new d.size), count := none }] }
            entries := [{ binding := 0, resource := pong }] }
        state := false } := rfl
  rw [hval] at h
  obtain rfl := Option.some.inj h
  obtain ⟨b, hb⟩ := swap_state_iterate_shape (ρ := ρ) n _
  rw [hb] at hp
  subst hp
  cases b
  · exact ⟨⟨_, _, rfl, rfl, rfl, rfl⟩, rfl, rfl⟩
  · exact ⟨⟨_, _, rfl, rfl, rfl, rfl⟩, rfl, rfl⟩

/-- C1 witness: the fixture buffer in its construction state binds buffer 1
(the current source) at the read_only entry and buffer 0 (the current target)
at the writable entry, and swapping exchanges them. -/
theorem c1_witness :
    (∃ e0 e1 : BindGroupLayoutEntry,
      ppb_fixture.ping_pong_bind_group_layout_builder_descriptor.entries = [e0, e1]
      ∧ e0.ty.storage_read_only = some true
      ∧ e1.ty.storage_read_only = some false
      ∧ ppb_fixture.get_current_ping_pong_bind_group.entries =
          [{ binding := e0.binding, resource := ppb_fixture.get_current_source_buffer },
           { binding := e1.binding, resource := ppb_fixture.get_current_target_buffer }])
    ∧ ppb_fixture.swap_state.get_current_source_buffer = ppb_fixture.get_current_target_buffer
    ∧ ppb_fixture.swap_state.get_current_target_buffer
        = ppb_fixture.get_current_source_buffer :=
  c1_ping_pong_read_write_consistency 0 1 descriptor_fixture
    ShaderStages.COMPUTE ShaderStages.COMPUTE ppb_fixture 0 ppb_fixture rfl rfl

end Oxyde
